import Mathlib

/-!
Verification development for the gestionbot ledger bot
(`src/gestionbot/main.py`).

The program keeps a single JSON-like document with two money balances
(`propre`, `sale`), a merchandise map from item names to integer
quantities, and two optional status-message identifiers.  Twelve slash
commands mutate it behind an access guard.  We embed the document, the
Python-dict operations the handlers use, the access guard, every
command handler (its guard branch, domain-error branches, mutation,
save and history effects), and the persistence codec, and prove the
spec claims about them.
-/

namespace Gestionbot

/-- The persisted ledger document (`DATA` in `main.py`): clean balance
`propre`, dirty balance `sale`, the merchandise map (a Python dict,
embedded as an insertion-ordered association list), and the two status
message ids (`status_message_ids`, each `null` or a numeric id). -/
structure LedgerDoc where
  propre : Int
  sale : Int
  marchandises : List (String × Int)
  banqueId : Option Int
  marchId : Option Int
deriving Repr, DecidableEq

/-- `DEFAULT_DATA` from the source: zero balances, empty merchandise
map, both status-message ids `null`. -/
def DEFAULT_DATA : LedgerDoc :=
  { propre := 0, sale := 0, marchandises := [], banqueId := none, marchId := none }

/-! ### Python dict operations used by the handlers -/

/-- `nom in merch` on a Python dict. -/
def dictContains (m : List (String × Int)) (k : String) : Bool :=
  m.any (fun kv => kv.1 == k)

/-- `merch.get(nom, d)` on a Python dict. -/
def dictGet (m : List (String × Int)) (k : String) (d : Int) : Int :=
  match m.find? (fun kv => kv.1 == k) with
  | some kv => kv.2
  | none => d

/-- `merch[nom] = v` on a Python dict: overwrite in place when the key
is present, else append a new entry (insertion order). -/
def dictSet (m : List (String × Int)) (k : String) (v : Int) : List (String × Int) :=
  if dictContains m k then
    m.map (fun kv => if kv.1 == k then (kv.1, v) else kv)
  else
    m ++ [(k, v)]

/-- `del merch[nom]` on a Python dict. -/
def dictDel (m : List (String × Int)) (k : String) : List (String × Int) :=
  m.filter (fun kv => kv.1 != k)

/-! ### Access guard -/

/-- The invoking Discord member: numeric id and `name#discriminator`
components, as consumed by `is_user_allowed`. -/
structure User where
  id : Nat
  name : String
  discriminator : String
deriving Repr, DecidableEq

/-- `ALLOWED_USER_IDS` from the CONFIG section. -/
def ALLOWED_USER_IDS : List Nat :=
  [549140350887788544, 428666981604917249, 621802427221278740]

/-- `ALLOWED_USER_NAMES` from the CONFIG section. -/
def ALLOWED_USER_NAMES : List String :=
  ["Alpha-1#0001", "Alpha-4#0004", "Alpha-5#0005"]

/-- `CHANNEL_CMD` from the CONFIG section. -/
def CHANNEL_CMD : String := "⚡┇cmds"

/-- `is_user_allowed`: first check the id against `ALLOWED_USER_IDS`,
then fall back to checking the name, a hash sign and the discriminator joined together
against `ALLOWED_USER_NAMES`. -/
def is_user_allowed (u : User) : Bool :=
  if ALLOWED_USER_IDS.contains u.id then
    true
  else if ALLOWED_USER_NAMES.contains (u.name ++ "#" ++ u.discriminator) then
    true
  else
    false

/-- `check_allowed_and_channel`: reject when the user is not allowed,
then reject when the interaction channel is `None` or its name differs
from `CHANNEL_CMD`; otherwise accept.  (`channel` is the name of the
invocation channel, `none` when the interaction has no channel.) -/
def check_allowed_and_channel (u : User) (channel : Option String) : Bool :=
  if !(is_user_allowed u) then
    false
  else
    match channel with
    | none => false
    | some nm => if nm != CHANNEL_CMD then false else true

/-! ### Command handlers

Each handler is embedded as a pure function from the invocation
context (user, channel), the current document and the command
arguments to a `HandlerResult`: the document afterwards, the outcome
reported to the caller, whether `save_data` ran, and whether a
`post_history` line was sent.  The acknowledgement / status-refresh
steps touch only Discord messages, never the document, and are not part
of the results the claims inspect. -/

/-- What the handler reports back to the invoker: the access-guard
rejection, a domain error (`duplicate` for an existing name on create,
`notFound` for a missing name), or the success acknowledgement. -/
inductive Outcome where
  | rejected
  | duplicate
  | notFound
  | success
deriving Repr, DecidableEq

/-- Result of one handler invocation: the document after the call, the
outcome reported to the caller, whether the document was persisted
(`save_data`), and whether a history line was posted (`post_history`). -/
structure HandlerResult where
  doc : LedgerDoc
  outcome : Outcome
  saved : Bool
  history : Bool
deriving Repr, DecidableEq

/-- `/propre_in`: guard, then add `montant` to the propre field of `DATA`,
save, acknowledge, log. -/
def propre_in (u : User) (ch : Option String) (doc : LedgerDoc) (montant : Int) :
    HandlerResult :=
  if !(check_allowed_and_channel u ch) then
    ⟨doc, Outcome.rejected, false, false⟩
  else
    ⟨{ doc with propre := doc.propre + montant }, Outcome.success, true, true⟩

/-- `/propre_out`: guard, then set the propre field of `DATA` to `max 0 (propre - montant)`,
save, acknowledge, log. -/
def propre_out (u : User) (ch : Option String) (doc : LedgerDoc) (montant : Int) :
    HandlerResult :=
  if !(check_allowed_and_channel u ch) then
    ⟨doc, Outcome.rejected, false, false⟩
  else
    ⟨{ doc with propre := max 0 (doc.propre - montant) }, Outcome.success, true, true⟩

/-- `/sale_in`: guard, then add `montant` to the sale field of `DATA`,
save, acknowledge, log. -/
def sale_in (u : User) (ch : Option String) (doc : LedgerDoc) (montant : Int) :
    HandlerResult :=
  if !(check_allowed_and_channel u ch) then
    ⟨doc, Outcome.rejected, false, false⟩
  else
    ⟨{ doc with sale := doc.sale + montant }, Outcome.success, true, true⟩

/-- `/sale_out`: guard, then set the sale field of `DATA` to `max 0 (sale - montant)`,
save, acknowledge, log. -/
def sale_out (u : User) (ch : Option String) (doc : LedgerDoc) (montant : Int) :
    HandlerResult :=
  if !(check_allowed_and_channel u ch) then
    ⟨doc, Outcome.rejected, false, false⟩
  else
    ⟨{ doc with sale := max 0 (doc.sale - montant) }, Outcome.success, true, true⟩

/-- `/new_marchandise`: guard, then if the name exists report the
duplicate and return (no save, no history), else insert it with
quantity 0, save and log. -/
def new_marchandise (u : User) (ch : Option String) (doc : LedgerDoc) (nom : String) :
    HandlerResult :=
  if !(check_allowed_and_channel u ch) then
    ⟨doc, Outcome.rejected, false, false⟩
  else if dictContains doc.marchandises nom then
    ⟨doc, Outcome.duplicate, false, false⟩
  else
    ⟨{ doc with marchandises := dictSet doc.marchandises nom 0 },
      Outcome.success, true, true⟩

/-- `/delete_marchandise`: guard, then if the name is absent report
not-found and return, else delete the entry, save and log. -/
def delete_marchandise (u : User) (ch : Option String) (doc : LedgerDoc) (nom : String) :
    HandlerResult :=
  if !(check_allowed_and_channel u ch) then
    ⟨doc, Outcome.rejected, false, false⟩
  else if !(dictContains doc.marchandises nom) then
    ⟨doc, Outcome.notFound, false, false⟩
  else
    ⟨{ doc with marchandises := dictDel doc.marchandises nom },
      Outcome.success, true, true⟩

/-- `/marchandise_in`: guard, then if the name is absent report
not-found and return, else `merch[nom] = merch.get(nom, 0) + quantite`,
save and log. -/
def marchandise_in (u : User) (ch : Option String) (doc : LedgerDoc)
    (nom : String) (quantite : Int) : HandlerResult :=
  if !(check_allowed_and_channel u ch) then
    ⟨doc, Outcome.rejected, false, false⟩
  else if !(dictContains doc.marchandises nom) then
    ⟨doc, Outcome.notFound, false, false⟩
  else
    let m := dictSet doc.marchandises nom (dictGet doc.marchandises nom 0 + quantite)
    ⟨{ doc with marchandises := m }, Outcome.success, true, true⟩

/-- `/marchandise_out`: guard, then if the name is absent report
not-found and return, else `merch[nom] = max(0, merch.get(nom, 0) - quantite)`,
save and log. -/
def marchandise_out (u : User) (ch : Option String) (doc : LedgerDoc)
    (nom : String) (quantite : Int) : HandlerResult :=
  if !(check_allowed_and_channel u ch) then
    ⟨doc, Outcome.rejected, false, false⟩
  else if !(dictContains doc.marchandises nom) then
    ⟨doc, Outcome.notFound, false, false⟩
  else
    let m := dictSet doc.marchandises nom (max 0 (dictGet doc.marchandises nom 0 - quantite))
    ⟨{ doc with marchandises := m }, Outcome.success, true, true⟩

/-- `/clean_propre`: guard, then set the propre field of `DATA` to 0, save, log. -/
def clean_propre (u : User) (ch : Option String) (doc : LedgerDoc) : HandlerResult :=
  if !(check_allowed_and_channel u ch) then
    ⟨doc, Outcome.rejected, false, false⟩
  else
    ⟨{ doc with propre := 0 }, Outcome.success, true, true⟩

/-- `/clean_sale`: guard, then set the sale field of `DATA` to 0, save, log. -/
def clean_sale (u : User) (ch : Option String) (doc : LedgerDoc) : HandlerResult :=
  if !(check_allowed_and_channel u ch) then
    ⟨doc, Outcome.rejected, false, false⟩
  else
    ⟨{ doc with sale := 0 }, Outcome.success, true, true⟩

/-- `/clean_marchandise`: guard, then if the name is absent report
not-found and return, else `merch[nom] = 0`, save, log. -/
def clean_marchandise (u : User) (ch : Option String) (doc : LedgerDoc) (nom : String) :
    HandlerResult :=
  if !(check_allowed_and_channel u ch) then
    ⟨doc, Outcome.rejected, false, false⟩
  else if !(dictContains doc.marchandises nom) then
    ⟨doc, Outcome.notFound, false, false⟩
  else
    ⟨{ doc with marchandises := dictSet doc.marchandises nom 0 },
      Outcome.success, true, true⟩

/-- `/clean_marchandise_all`: guard, then
rebuild the merchandise dict with every key mapped to 0, save, log. -/
def clean_marchandise_all (u : User) (ch : Option String) (doc : LedgerDoc) :
    HandlerResult :=
  if !(check_allowed_and_channel u ch) then
    ⟨doc, Outcome.rejected, false, false⟩
  else
    ⟨{ doc with marchandises := doc.marchandises.map (fun kv => (kv.1, 0)) },
      Outcome.success, true, true⟩

/-! ### Persistence

`save_data` serializes the whole document with `json.dump`;
`load_data` parses the file with `json.load`, creating and returning
`DEFAULT_DATA` when no file exists.  We embed the JSON layer as a tree
of JSON values: the file holds `none` (absent) or the parsed JSON
value, `save_data` produces the JSON tree of the document in the persisted
schema (section 6 of the spec), and decoding reads the fields back. -/

/-- JSON values, as far as the persisted schema uses them: `null`,
integers, strings and objects (insertion-ordered key/value lists). -/
inductive Json where
  | null : Json
  | int (n : Int) : Json
  | str (s : String) : Json
  | obj (fields : List (String × Json)) : Json

/-- Key `propre` of the persisted object. -/
def kPropre : String := "propre"

/-- Key `sale` of the persisted object. -/
def kSale : String := "sale"

/-- Key `marchandises`, both the top-level map key and the second
status-message-id key. -/
def kMarch : String := "marchandises"

/-- Key `status_message_ids` of the persisted object. -/
def kStatus : String := "status_message_ids"

/-- Key `banque` of the `status_message_ids` sub-object. -/
def kBanque : String := "banque"

/-- A status-message id serializes to `null` when absent, else to the
numeric id. -/
def encodeId : Option Int → Json
  | none => Json.null
  | some i => Json.int i

/-- The merchandise dict serializes entrywise to a JSON object. -/
def encodeMarch (m : List (String × Int)) : List (String × Json) :=
  m.map (fun kv => (kv.1, Json.int kv.2))

/-- `save_data(data)`: the full-document overwrite `json.dump` writes,
in the persisted schema `{propre, sale, marchandises, status_message_ids}`. -/
def save_data (doc : LedgerDoc) : Json :=
  Json.obj
    [(kPropre, Json.int doc.propre),
     (kSale, Json.int doc.sale),
     (kMarch, Json.obj (encodeMarch doc.marchandises)),
     (kStatus, Json.obj
        [(kBanque, encodeId doc.banqueId), (kMarch, encodeId doc.marchId)])]

/-- Field lookup in a parsed JSON object (Python dict indexing). -/
def jlookup (fields : List (String × Json)) (k : String) : Option Json :=
  (fields.find? (fun kv => kv.1 == k)).map (fun kv => kv.2)

/-- Read an integer field of the parsed document. -/
def decodeInt : Option Json → Option Int
  | some (Json.int n) => some n
  | _ => none

/-- Read a status-message id: `null` parses to absent, an integer to
the id itself. -/
def decodeId : Option Json → Option (Option Int)
  | some Json.null => some none
  | some (Json.int n) => some (some n)
  | _ => none

/-- Read the merchandise object back into the dict, entry by entry. -/
def decodeMarch : List (String × Json) → Option (List (String × Int))
  | [] => some []
  | (k, Json.int v) :: rest =>
    match decodeMarch rest with
    | some r => some ((k, v) :: r)
    | none => none
  | _ => none

/-- Reassemble a `LedgerDoc` from a parsed JSON value in the persisted
schema; `none` when the value does not carry the schema. -/
def docFromJson : Json → Option LedgerDoc
  | Json.obj fields =>
    match decodeInt (jlookup fields kPropre), decodeInt (jlookup fields kSale) with
    | some p, some s =>
      match jlookup fields kMarch with
      | some (Json.obj mf) =>
        match decodeMarch mf with
        | some m =>
          match jlookup fields kStatus with
          | some (Json.obj sf) =>
            match decodeId (jlookup sf kBanque), decodeId (jlookup sf kMarch) with
            | some b, some mi =>
              some { propre := p, sale := s, marchandises := m,
                     banqueId := b, marchId := mi }
            | _, _ => none
          | _ => none
        | none => none
      | _ => none
    | _, _ => none
  | _ => none

/-- `load_data()`: when no persisted file exists, write `DEFAULT_DATA`
and return a copy of it; otherwise parse the file. -/
def load_data : Option Json → Option LedgerDoc
  | none => some DEFAULT_DATA
  | some j => docFromJson j

/-! ### Concrete actors used by witnesses and counterexamples -/

/-- The first configured operator: their id is in `ALLOWED_USER_IDS`. -/
def alphaOne : User :=
  { id := 549140350887788544, name := "Alpha-1", discriminator := "0001" }

/-- An unrelated member: neither their id nor their
`name#discriminator` is configured. -/
def outsider : User :=
  { id := 42, name := "Bob", discriminator := "1234" }

/-! ### Dictionary lemmas -/

theorem find?_set_self (m : List (String × Int)) (k : String) (v : Int)
    (h : m.any (fun kv => kv.1 == k) = true) :
    (m.map (fun kv => if kv.1 == k then (kv.1, v) else kv)).find?
      (fun kv => kv.1 == k) = some (k, v) := by
  induction m with
  | nil => simp at h
  | cons hd t ih =>
    obtain ⟨a, b⟩ := hd
    rw [List.map_cons]
    by_cases hak : a = k
    · rw [List.find?_cons_of_pos]
      · simp [hak]
      · simp [hak]
    · rw [List.find?_cons_of_neg]
      · refine ih ?_
        simpa [List.any_cons, hak] using h
      · simp [hak]

theorem dictGet_dictSet_self (m : List (String × Int)) (k : String) (v : Int)
    (h : dictContains m k = true) : dictGet (dictSet m k v) k 0 = v := by
  unfold dictSet
  rw [if_pos h]
  unfold dictGet
  rw [find?_set_self m k v h]

theorem dictContains_dictDel_self (m : List (String × Int)) (k : String) :
    dictContains (dictDel m k) k = false := by
  induction m with
  | nil => rfl
  | cons hd t ih =>
    obtain ⟨a, b⟩ := hd
    by_cases hak : a = k
    · have hdel : dictDel ((a, b) :: t) k = dictDel t k := by
        simp [dictDel, List.filter_cons, hak]
      rw [hdel]
      exact ih
    · have hdel : dictDel ((a, b) :: t) k = (a, b) :: dictDel t k := by
        simp [dictDel, List.filter_cons, hak]
      rw [hdel]
      simpa [dictContains, List.any_cons, hak] using ih

theorem dictGet_nonneg (m : List (String × Int)) (k : String)
    (h : ∀ kv ∈ m, 0 ≤ kv.2) : 0 ≤ dictGet m k 0 := by
  unfold dictGet
  cases hf : m.find? (fun kv => kv.1 == k) with
  | none => simp
  | some kv => exact h kv (List.mem_of_find?_eq_some hf)

theorem dictSet_nonneg (m : List (String × Int)) (k : String) (v : Int)
    (hm : ∀ kv ∈ m, 0 ≤ kv.2) (hv : 0 ≤ v) :
    ∀ kv ∈ dictSet m k v, 0 ≤ kv.2 := by
  intro kv hkv
  unfold dictSet at hkv
  split at hkv
  · obtain ⟨kv0, hkv0, hmap⟩ := List.mem_map.1 hkv
    by_cases hb : (kv0.1 == k) = true
    · simp only [hb, if_pos] at hmap
      rw [← hmap]
      exact hv
    · simp only [hb, if_neg, Bool.false_eq_true, not_false_iff] at hmap
      rw [← hmap]
      exact hm kv0 hkv0
  · rcases List.mem_append.1 hkv with h | h
    · exact hm kv h
    · simp at h
      rw [h]
      exact hv

theorem dictDel_nonneg (m : List (String × Int)) (k : String)
    (hm : ∀ kv ∈ m, 0 ≤ kv.2) : ∀ kv ∈ dictDel m k, 0 ≤ kv.2 := by
  intro kv hkv
  exact hm kv (List.mem_of_mem_filter hkv)

theorem zeroed_nonneg (m : List (String × Int)) :
    ∀ kv ∈ m.map (fun kv => (kv.1, (0 : Int))), 0 ≤ kv.2 := by
  intro kv hkv
  obtain ⟨kv0, _, hmap⟩ := List.mem_map.1 hkv
  rw [← hmap]

/-! ### The non-negativity invariant -/

/-- The invariant the spec states on the ledger document: both balances and
every merchandise quantity are non-negative. -/
def docInv (d : LedgerDoc) : Prop :=
  0 ≤ d.propre ∧ 0 ≤ d.sale ∧ ∀ kv ∈ d.marchandises, 0 ≤ kv.2

instance (d : LedgerDoc) : Decidable (docInv d) := by
  unfold docInv
  infer_instance

/-! ### Codec lemmas -/

theorem decodeMarch_encodeMarch (m : List (String × Int)) :
    decodeMarch (encodeMarch m) = some m := by
  induction m with
  | nil => rfl
  | cons hd t ih =>
    obtain ⟨a, b⟩ := hd
    show decodeMarch ((a, Json.int b) :: encodeMarch t) = some ((a, b) :: t)
    rw [decodeMarch, ih]

theorem decodeId_encodeId (o : Option Int) :
    decodeId (some (encodeId o)) = some o := by
  cases o <;> rfl

/-! ### Claim theorems -/

/-- C2: for every document with non-negative balances and every amount,
`propre_out` and `sale_out` set their balance to `max 0 (balance - amount)`;
in particular from clean = 0, `propre_in 500` then `propre_out 700`
ends at clean = 0, not -200. -/
theorem claimC2 (u : User) (ch : Option String) (doc : LedgerDoc) (a : Int)
    (hg : check_allowed_and_channel u ch = true)
    (hp : 0 ≤ doc.propre) (hs : 0 ≤ doc.sale) :
    (propre_out u ch doc a).doc.propre = max 0 (doc.propre - a) ∧
    (sale_out u ch doc a).doc.sale = max 0 (doc.sale - a) ∧
    (propre_in u ch { doc with propre := 0 } 500).doc.propre = 500 ∧
    (propre_out u ch (propre_in u ch { doc with propre := 0 } 500).doc 700).doc.propre
      = 0 := by
  refine ⟨by simp [propre_out, hg], by simp [sale_out, hg], by simp [propre_in, hg], ?_⟩
  simp [propre_in, propre_out, hg]

/-- C2 witness: instantiated for the first operator in the command
channel on the default document with amount 3. -/
theorem claimC2_witness :
    (propre_out alphaOne (some CHANNEL_CMD) DEFAULT_DATA 3).doc.propre
      = max 0 (DEFAULT_DATA.propre - 3) :=
  (claimC2 alphaOne (some CHANNEL_CMD) DEFAULT_DATA 3 (by decide) (by decide)
    (by decide)).1

/-- C3: for every document and amount, `propre_in` and `sale_in` add the
amount to their balance, and `marchandise_in` on an existing item adds
the amount to the quantity of that item. -/
theorem claimC3 (u : User) (ch : Option String) (doc : LedgerDoc)
    (a q : Int) (nom : String)
    (hg : check_allowed_and_channel u ch = true)
    (hnom : dictContains doc.marchandises nom = true) :
    (propre_in u ch doc a).doc.propre = doc.propre + a ∧
    (sale_in u ch doc a).doc.sale = doc.sale + a ∧
    dictGet (marchandise_in u ch doc nom q).doc.marchandises nom 0
      = dictGet doc.marchandises nom 0 + q := by
  refine ⟨by simp [propre_in, hg], by simp [sale_in, hg], ?_⟩
  have hdoc : (marchandise_in u ch doc nom q).doc.marchandises
      = dictSet doc.marchandises nom (dictGet doc.marchandises nom 0 + q) := by
    simp [marchandise_in, hg, hnom]
  rw [hdoc]
  exact dictGet_dictSet_self _ _ _ hnom

/-- C3 witness: instantiated for the first operator in the command
channel on a document holding one item. -/
theorem claimC3_witness :
    dictGet
      (marchandise_in alphaOne (some CHANNEL_CMD)
        { DEFAULT_DATA with marchandises := [("crates", 10)] }
        ("crates") 5).doc.marchandises ("crates") 0
      = dictGet [("crates", 10)] ("crates") 0 + 5 :=
  (claimC3 alphaOne (some CHANNEL_CMD)
    { DEFAULT_DATA with marchandises := [("crates", 10)] } 2 5 ("crates")
    (by decide) (by decide)).2.2

/-- C4: creating a merchandise name that already exists leaves the
document unchanged, reports the duplicate, and neither saves nor writes
a history entry. -/
theorem claimC4 (u : User) (ch : Option String) (doc : LedgerDoc) (nom : String)
    (hg : check_allowed_and_channel u ch = true)
    (hdup : dictContains doc.marchandises nom = true) :
    new_marchandise u ch doc nom = ⟨doc, Outcome.duplicate, false, false⟩ := by
  simp [new_marchandise, hg, hdup]

/-- C4 witness: instantiated on a document already holding the item. -/
theorem claimC4_witness :
    new_marchandise alphaOne (some CHANNEL_CMD)
        { DEFAULT_DATA with marchandises := [("crates", 10)] } ("crates")
      = ⟨{ DEFAULT_DATA with marchandises := [("crates", 10)] },
          Outcome.duplicate, false, false⟩ :=
  claimC4 alphaOne (some CHANNEL_CMD)
    { DEFAULT_DATA with marchandises := [("crates", 10)] } ("crates")
    (by decide) (by decide)

/-- C5: deleting an absent merchandise name is a no-op reported as
not-found, and after a successful delete, `marchandise_in` on that name
is likewise a not-found no-op. -/
theorem claimC5 (u : User) (ch : Option String) (doc : LedgerDoc)
    (nom : String) (q : Int)
    (hg : check_allowed_and_channel u ch = true) :
    (dictContains doc.marchandises nom = false →
      delete_marchandise u ch doc nom = ⟨doc, Outcome.notFound, false, false⟩) ∧
    (dictContains doc.marchandises nom = true →
      marchandise_in u ch (delete_marchandise u ch doc nom).doc nom q
        = ⟨(delete_marchandise u ch doc nom).doc, Outcome.notFound, false, false⟩) := by
  constructor
  · intro habs
    simp [delete_marchandise, hg, habs]
  · intro hpres
    have hdoc : (delete_marchandise u ch doc nom).doc
        = { doc with marchandises := dictDel doc.marchandises nom } := by
      simp [delete_marchandise, hg, hpres]
    rw [hdoc]
    simp [marchandise_in, hg, dictContains_dictDel_self]

/-- C5 witness: instantiated on a document holding one item, deleted
and then fed back to `marchandise_in`. -/
theorem claimC5_witness :
    marchandise_in alphaOne (some CHANNEL_CMD)
        (delete_marchandise alphaOne (some CHANNEL_CMD)
          { DEFAULT_DATA with marchandises := [("crates", 10)] } ("crates")).doc
        ("crates") 4
      = ⟨(delete_marchandise alphaOne (some CHANNEL_CMD)
            { DEFAULT_DATA with marchandises := [("crates", 10)] } ("crates")).doc,
          Outcome.notFound, false, false⟩ :=
  (claimC5 alphaOne (some CHANNEL_CMD)
    { DEFAULT_DATA with marchandises := [("crates", 10)] } ("crates") 4
    (by decide)).2 (by decide)

theorem check_eq_false_of (u : User) (ch : Option String)
    (h : is_user_allowed u = false ∨ ch ≠ some CHANNEL_CMD) :
    check_allowed_and_channel u ch = false := by
  unfold check_allowed_and_channel
  rcases h with h | h
  · simp [h]
  · cases hu : is_user_allowed u
    · simp
    · cases ch with
      | none => simp
      | some nm =>
        have hne : nm ≠ CHANNEL_CMD := fun he => h (by rw [he])
        simp [hne]

/-- C6: whenever the access check fails (actor not permitted, or the
invocation channel is not the command channel), each of the twelve
handlers leaves the document unchanged, reports the rejection, and
neither saves nor writes a history entry. -/
theorem claimC6 (u : User) (ch : Option String) (doc : LedgerDoc)
    (montant quantite : Int) (nom : String)
    (h : is_user_allowed u = false ∨ ch ≠ some CHANNEL_CMD) :
    propre_in u ch doc montant = ⟨doc, Outcome.rejected, false, false⟩ ∧
    propre_out u ch doc montant = ⟨doc, Outcome.rejected, false, false⟩ ∧
    sale_in u ch doc montant = ⟨doc, Outcome.rejected, false, false⟩ ∧
    sale_out u ch doc montant = ⟨doc, Outcome.rejected, false, false⟩ ∧
    new_marchandise u ch doc nom = ⟨doc, Outcome.rejected, false, false⟩ ∧
    delete_marchandise u ch doc nom = ⟨doc, Outcome.rejected, false, false⟩ ∧
    marchandise_in u ch doc nom quantite = ⟨doc, Outcome.rejected, false, false⟩ ∧
    marchandise_out u ch doc nom quantite = ⟨doc, Outcome.rejected, false, false⟩ ∧
    clean_propre u ch doc = ⟨doc, Outcome.rejected, false, false⟩ ∧
    clean_sale u ch doc = ⟨doc, Outcome.rejected, false, false⟩ ∧
    clean_marchandise u ch doc nom = ⟨doc, Outcome.rejected, false, false⟩ ∧
    clean_marchandise_all u ch doc = ⟨doc, Outcome.rejected, false, false⟩ := by
  have hg := check_eq_false_of u ch h
  exact ⟨by simp [propre_in, hg], by simp [propre_out, hg], by simp [sale_in, hg],
    by simp [sale_out, hg], by simp [new_marchandise, hg],
    by simp [delete_marchandise, hg], by simp [marchandise_in, hg],
    by simp [marchandise_out, hg], by simp [clean_propre, hg],
    by simp [clean_sale, hg], by simp [clean_marchandise, hg],
    by simp [clean_marchandise_all, hg]⟩

/-- C6 witness: instantiated for an unpermitted member invoking
`propre_in` from the command channel. -/
theorem claimC6_witness :
    propre_in outsider (some CHANNEL_CMD) DEFAULT_DATA 5
      = ⟨DEFAULT_DATA, Outcome.rejected, false, false⟩ :=
  (claimC6 outsider (some CHANNEL_CMD) DEFAULT_DATA 5 2 ("crates")
    (Or.inl (by decide))).1

/-- C7: saving any ledger document and loading it back yields a
document equal in all fields: both balances, the merchandise map and
both status-message ids survive the round trip. -/
theorem claimC7 (doc : LedgerDoc) :
    load_data (some (save_data doc)) = some doc := by
  simp [load_data, save_data, docFromJson, jlookup, decodeInt,
        kPropre, kSale, kMarch, kStatus, kBanque,
        decodeMarch_encodeMarch, decodeId_encodeId]

/-- C8: every reset-to-zero handler yields 0 regardless of the prior
value — `clean_propre` for the clean balance, `clean_sale` for the
dirty balance, `clean_marchandise` for the quantity of an existing item —
and `clean_marchandise_all` zeroes every quantity while keeping the
item-name list unchanged. -/
theorem claimC8 (u : User) (ch : Option String) (doc : LedgerDoc) (nom : String)
    (hg : check_allowed_and_channel u ch = true)
    (hnom : dictContains doc.marchandises nom = true) :
    (clean_propre u ch doc).doc.propre = 0 ∧
    (clean_sale u ch doc).doc.sale = 0 ∧
    dictGet (clean_marchandise u ch doc nom).doc.marchandises nom 0 = 0 ∧
    (∀ kv ∈ (clean_marchandise_all u ch doc).doc.marchandises, kv.2 = 0) ∧
    (clean_marchandise_all u ch doc).doc.marchandises.map Prod.fst
      = doc.marchandises.map Prod.fst := by
  have hall : (clean_marchandise_all u ch doc).doc.marchandises
      = doc.marchandises.map (fun kv => (kv.1, (0 : Int))) := by
    simp [clean_marchandise_all, hg]
  refine ⟨by simp [clean_propre, hg], by simp [clean_sale, hg], ?_, ?_, ?_⟩
  · have h1 : (clean_marchandise u ch doc nom).doc.marchandises
        = dictSet doc.marchandises nom 0 := by
      simp [clean_marchandise, hg, hnom]
    rw [h1]
    exact dictGet_dictSet_self _ _ _ hnom
  · rw [hall]
    intro kv hkv
    obtain ⟨kv0, _, hmap⟩ := List.mem_map.1 hkv
    rw [← hmap]
  · rw [hall, List.map_map]
    rfl

/-- C8 witness: instantiated on a document holding two items with
non-zero quantities. -/
theorem claimC8_witness :
    (clean_marchandise_all alphaOne (some CHANNEL_CMD)
        { DEFAULT_DATA with
            marchandises := [("crates", 10), ("boxes", 3)] }).doc.marchandises.map
        Prod.fst
      = [("crates", (10 : Int)), ("boxes", 3)].map Prod.fst :=
  (claimC8 alphaOne (some CHANNEL_CMD)
    { DEFAULT_DATA with marchandises := [("crates", 10), ("boxes", 3)] } ("crates")
    (by decide) (by decide)).2.2.2.2

/-- C9: the permission predicate accepts a user exactly when their id
is in `ALLOWED_USER_IDS` or their `name#discriminator` string is in
`ALLOWED_USER_NAMES`; the name fallback applies to every user even
though the id allow-list is configured and non-empty (witnessed by a
user with an unconfigured id accepted through their name). -/
theorem claimC9 :
    (∀ u : User,
      is_user_allowed u
        = (ALLOWED_USER_IDS.contains u.id
            || ALLOWED_USER_NAMES.contains (u.name ++ "#" ++ u.discriminator))) ∧
    ALLOWED_USER_IDS ≠ [] ∧
    is_user_allowed { id := 0, name := "Alpha-4", discriminator := "0004" } = true := by
  refine ⟨?_, by decide, by decide⟩
  intro u
  unfold is_user_allowed
  cases h1 : ALLOWED_USER_IDS.contains u.id
  · cases h2 : ALLOWED_USER_NAMES.contains (u.name ++ "#" ++ u.discriminator) <;> simp
  · simp

/-- The document fields a clean-money operation must not touch. -/
def sameExceptPropre (d e : LedgerDoc) : Prop :=
  e.sale = d.sale ∧ e.marchandises = d.marchandises ∧
  e.banqueId = d.banqueId ∧ e.marchId = d.marchId

/-- The document fields a dirty-money operation must not touch. -/
def sameExceptSale (d e : LedgerDoc) : Prop :=
  e.propre = d.propre ∧ e.marchandises = d.marchandises ∧
  e.banqueId = d.banqueId ∧ e.marchId = d.marchId

/-- The document fields a merchandise operation must not touch. -/
def sameExceptMarch (d e : LedgerDoc) : Prop :=
  e.propre = d.propre ∧ e.sale = d.sale ∧
  e.banqueId = d.banqueId ∧ e.marchId = d.marchId

/-- C10: accepted clean-money operations change only the clean
balance, dirty-money operations only the dirty balance, and
merchandise operations only the merchandise map; all other fields,
including both status-message ids, are unchanged. -/
theorem claimC10 (u : User) (ch : Option String) (doc : LedgerDoc)
    (montant quantite : Int) (nom : String)
    (hg : check_allowed_and_channel u ch = true) :
    sameExceptPropre doc (propre_in u ch doc montant).doc ∧
    sameExceptPropre doc (propre_out u ch doc montant).doc ∧
    sameExceptPropre doc (clean_propre u ch doc).doc ∧
    sameExceptSale doc (sale_in u ch doc montant).doc ∧
    sameExceptSale doc (sale_out u ch doc montant).doc ∧
    sameExceptSale doc (clean_sale u ch doc).doc ∧
    sameExceptMarch doc (new_marchandise u ch doc nom).doc ∧
    sameExceptMarch doc (delete_marchandise u ch doc nom).doc ∧
    sameExceptMarch doc (marchandise_in u ch doc nom quantite).doc ∧
    sameExceptMarch doc (marchandise_out u ch doc nom quantite).doc ∧
    sameExceptMarch doc (clean_marchandise u ch doc nom).doc ∧
    sameExceptMarch doc (clean_marchandise_all u ch doc).doc := by
  refine ⟨by simp [propre_in, hg, sameExceptPropre],
    by simp [propre_out, hg, sameExceptPropre],
    by simp [clean_propre, hg, sameExceptPropre],
    by simp [sale_in, hg, sameExceptSale],
    by simp [sale_out, hg, sameExceptSale],
    by simp [clean_sale, hg, sameExceptSale], ?_, ?_, ?_, ?_, ?_,
    by simp [clean_marchandise_all, hg, sameExceptMarch]⟩
  · cases hc : dictContains doc.marchandises nom <;>
      simp [new_marchandise, hg, hc, sameExceptMarch]
  · cases hc : dictContains doc.marchandises nom <;>
      simp [delete_marchandise, hg, hc, sameExceptMarch]
  · cases hc : dictContains doc.marchandises nom <;>
      simp [marchandise_in, hg, hc, sameExceptMarch]
  · cases hc : dictContains doc.marchandises nom <;>
      simp [marchandise_out, hg, hc, sameExceptMarch]
  · cases hc : dictContains doc.marchandises nom <;>
      simp [clean_marchandise, hg, hc, sameExceptMarch]

/-- C10 witness: instantiated for the first operator in the command
channel on the default document. -/
theorem claimC10_witness :
    sameExceptPropre DEFAULT_DATA
      (propre_in alphaOne (some CHANNEL_CMD) DEFAULT_DATA 5).doc :=
  (claimC10 alphaOne (some CHANNEL_CMD) DEFAULT_DATA 5 2 ("crates") (by decide)).1

/-- C1 counterexample: from the initial document, the first operator
invoking `propre_in` with amount -200 in the command channel is
accepted, yet it leaves the clean balance at -200 — below zero, not
clamped — so the invariant does not hold for negative input amounts. -/
theorem claimC1_counterexample :
    check_allowed_and_channel alphaOne (some CHANNEL_CMD) = true ∧
    (propre_in alphaOne (some CHANNEL_CMD) DEFAULT_DATA (-200)).outcome
      = Outcome.success ∧
    (propre_in alphaOne (some CHANNEL_CMD) DEFAULT_DATA (-200)).doc.propre = -200 ∧
    (propre_in alphaOne (some CHANNEL_CMD) DEFAULT_DATA (-200)).doc.propre < 0 := by
  decide

/-- C1 (amended): for every document satisfying the non-negativity
invariant and every accepted operation whose amount argument is
non-negative, both balances and every merchandise quantity are
non-negative after the operation; out-operations clamp below-zero
results to zero. -/
theorem claimC1 (u : User) (ch : Option String) (doc : LedgerDoc)
    (montant quantite : Int) (nom : String)
    (hg : check_allowed_and_channel u ch = true)
    (hdoc : docInv doc) (hm : 0 ≤ montant) (hq : 0 ≤ quantite) :
    docInv (propre_in u ch doc montant).doc ∧
    docInv (propre_out u ch doc montant).doc ∧
    docInv (sale_in u ch doc montant).doc ∧
    docInv (sale_out u ch doc montant).doc ∧
    docInv (new_marchandise u ch doc nom).doc ∧
    docInv (delete_marchandise u ch doc nom).doc ∧
    docInv (marchandise_in u ch doc nom quantite).doc ∧
    docInv (marchandise_out u ch doc nom quantite).doc ∧
    docInv (clean_propre u ch doc).doc ∧
    docInv (clean_sale u ch doc).doc ∧
    docInv (clean_marchandise u ch doc nom).doc ∧
    docInv (clean_marchandise_all u ch doc).doc := by
  refine ⟨?_, ?_, ?_, ?_, ?_, ?_, ?_, ?_, ?_, ?_, ?_, ?_⟩
  · have h : (propre_in u ch doc montant).doc
        = { doc with propre := doc.propre + montant } := by
      simp [propre_in, hg]
    rw [h]
    exact ⟨add_nonneg hdoc.1 hm, hdoc.2.1, hdoc.2.2⟩
  · have h : (propre_out u ch doc montant).doc
        = { doc with propre := max 0 (doc.propre - montant) } := by
      simp [propre_out, hg]
    rw [h]
    exact ⟨le_max_left 0 _, hdoc.2.1, hdoc.2.2⟩
  · have h : (sale_in u ch doc montant).doc
        = { doc with sale := doc.sale + montant } := by
      simp [sale_in, hg]
    rw [h]
    exact ⟨hdoc.1, add_nonneg hdoc.2.1 hm, hdoc.2.2⟩
  · have h : (sale_out u ch doc montant).doc
        = { doc with sale := max 0 (doc.sale - montant) } := by
      simp [sale_out, hg]
    rw [h]
    exact ⟨hdoc.1, le_max_left 0 _, hdoc.2.2⟩
  · cases hc : dictContains doc.marchandises nom
    · have h : (new_marchandise u ch doc nom).doc
          = { doc with marchandises := dictSet doc.marchandises nom 0 } := by
        simp [new_marchandise, hg, hc]
      rw [h]
      exact ⟨hdoc.1, hdoc.2.1, dictSet_nonneg _ _ _ hdoc.2.2 le_rfl⟩
    · have h : (new_marchandise u ch doc nom).doc = doc := by
        simp [new_marchandise, hg, hc]
      rw [h]
      exact hdoc
  · cases hc : dictContains doc.marchandises nom
    · have h : (delete_marchandise u ch doc nom).doc = doc := by
        simp [delete_marchandise, hg, hc]
      rw [h]
      exact hdoc
    · have h : (delete_marchandise u ch doc nom).doc
          = { doc with marchandises := dictDel doc.marchandises nom } := by
        simp [delete_marchandise, hg, hc]
      rw [h]
      exact ⟨hdoc.1, hdoc.2.1, dictDel_nonneg _ _ hdoc.2.2⟩
  · cases hc : dictContains doc.marchandises nom
    · have h : (marchandise_in u ch doc nom quantite).doc = doc := by
        simp [marchandise_in, hg, hc]
      rw [h]
      exact hdoc
    · have h : (marchandise_in u ch doc nom quantite).doc
          = { doc with marchandises := dictSet doc.marchandises nom (dictGet doc.marchandises nom 0 + quantite) } := by
        simp [marchandise_in, hg, hc]
      rw [h]
      refine ⟨hdoc.1, hdoc.2.1, dictSet_nonneg _ _ _ hdoc.2.2 ?_⟩
      exact add_nonneg (dictGet_nonneg _ _ hdoc.2.2) hq
  · cases hc : dictContains doc.marchandises nom
    · have h : (marchandise_out u ch doc nom quantite).doc = doc := by
        simp [marchandise_out, hg, hc]
      rw [h]
      exact hdoc
    · have h : (marchandise_out u ch doc nom quantite).doc
          = { doc with marchandises := dictSet doc.marchandises nom (max 0 (dictGet doc.marchandises nom 0 - quantite)) } := by
        simp [marchandise_out, hg, hc]
      rw [h]
      exact ⟨hdoc.1, hdoc.2.1, dictSet_nonneg _ _ _ hdoc.2.2 (le_max_left 0 _)⟩
  · have h : (clean_propre u ch doc).doc = { doc with propre := 0 } := by
      simp [clean_propre, hg]
    rw [h]
    exact ⟨le_refl 0, hdoc.2.1, hdoc.2.2⟩
  · have h : (clean_sale u ch doc).doc = { doc with sale := 0 } := by
      simp [clean_sale, hg]
    rw [h]
    exact ⟨hdoc.1, le_refl 0, hdoc.2.2⟩
  · cases hc : dictContains doc.marchandises nom
    · have h : (clean_marchandise u ch doc nom).doc = doc := by
        simp [clean_marchandise, hg, hc]
      rw [h]
      exact hdoc
    · have h : (clean_marchandise u ch doc nom).doc
          = { doc with marchandises := dictSet doc.marchandises nom 0 } := by
        simp [clean_marchandise, hg, hc]
      rw [h]
      exact ⟨hdoc.1, hdoc.2.1, dictSet_nonneg _ _ _ hdoc.2.2 le_rfl⟩
  · have h : (clean_marchandise_all u ch doc).doc
        = { doc with marchandises := doc.marchandises.map (fun kv => (kv.1, 0)) } := by
      simp [clean_marchandise_all, hg]
    rw [h]
    exact ⟨hdoc.1, hdoc.2.1, zeroed_nonneg _⟩

/-- C1 witness: instantiated for the first operator in the command
channel on the default document with non-negative amounts. -/
theorem claimC1_witness :
    docInv (propre_in alphaOne (some CHANNEL_CMD) DEFAULT_DATA 5).doc :=
  (claimC1 alphaOne (some CHANNEL_CMD) DEFAULT_DATA 5 2 ("crates")
    (by decide) (by decide) (by decide) (by decide)).1

end Gestionbot
